import Mathlib

/-!
# Verification of the spacebar-bridge relay (shallow embedding)

Shallow embedding of the spacebar-bridge repository:
* `src/bridge/formatter.py` — content rewriting (emoji, mentions, roles,
  channel URLs, channels, polls, interaction prefix, embeds, stickers);
* `src/bridge/discord.py` — REST payload construction (`send_message`,
  `send_update_message`, `send_delete_message`, `generate_nonce`);
* `src/bridge/gateway.py` — normalized `MESSAGE_DELETE` event shape;
* `src/main.py` — the relay loops (`loop_a`/`loop_b`), author helpers and the
  per-iteration gateway error check.

Machine integers are modelled as `Nat`/`Int` (Python ints are unbounded, so no
wraparound is needed).  Python `None` becomes `Option`, Python truthiness of
strings and optional strings is made explicit (`pyTruthy`, non-empty strings).
Network and database effects are modelled as explicit oracles: the relay step
returns the list of REST/store actions it performs, and REST responses are
inputs.  Time (`time.time()`) is passed as an explicit parameter.
-/

namespace SpacebarBridge

/-- Python truthiness of an optional string: `None` and `""` are falsy. -/
def pyTruthy : Option String → Bool
  | none => false
  | some s => !s.isEmpty

/-- Python `str.strip("\n")`: remove leading and trailing newline characters. -/
def stripNL (s : String) : String :=
  String.mk (((s.data.dropWhile (· == '\n')).reverse.dropWhile (· == '\n')).reverse)

/-! ## Formatter: regex scanners (`src/bridge/formatter.py`)

Every `replace_*` function in `formatter.py` has the same skeleton: iterate
over the non-overlapping matches of a pattern from left to right
(`re.finditer`), copy the text between matches unchanged, and emit a
replacement for each match.  `scanRw` is the common translation of that
skeleton: `m cs` returns `some (replacement, tail)` when the pattern matches at
the start of `cs` (with `tail` the text after the match), and `none` otherwise.
The fuel argument bounds the number of scanner steps; it is initialised to the
text length, which suffices because every step consumes at least one
character. -/

/-- Left-to-right rewriting by a matcher, mirroring the `re.finditer` loop
shared by all `replace_*` functions in `formatter.py`. -/
def scanRw (m : List Char → Option (List Char × List Char)) :
    Nat → List Char → List Char
  | 0, cs => cs
  | _ + 1, [] => []
  | fuel + 1, c :: rest =>
    match m (c :: rest) with
    | some (repl, tail) => repl ++ scanRw m fuel tail
    | none => c :: scanRw m fuel rest

/-- A user entry of the `mentions` array of a message (fields used by
`replace_mentions`). -/
structure UserRef where
  id : String
  username : String
  deriving DecidableEq, Repr

/-- A role entry (fields used by `replace_roles`). -/
structure Role where
  id : String
  name : String
  deriving DecidableEq, Repr

/-- A channel entry (fields used by `replace_channels`). -/
structure Chan where
  id : String
  name : String
  deriving DecidableEq, Repr

/-- Tail pattern `\d*?>` after a fixed head: lazy digits followed by `>`.  Because `>` is
not a digit, the lazy quantifier takes exactly the run of consecutive digits,
which must be terminated by `>`.  Returns the digit run and the text after the
`>`. -/
def digitRun (r : List Char) : Option (List Char × List Char) :=
  let ds := r.takeWhile Char.isDigit
  match r.dropWhile Char.isDigit with
  | c :: tail => if c = '>' then some (ds, tail) else none
  | [] => none

/-- Matcher for the `formatter.py` pattern `match_mention = <@(\d*?)>` together with the
per-match replacement of `replace_mentions`: the first user whose `id` equals
the matched digits yields `@username`; with no match the token is replaced by
nothing (the inner `for` loop of the source has no `else` clause, so nothing is
appended for the match). -/
def mentionAt (users : List UserRef) : List Char → Option (List Char × List Char)
  | c1 :: c2 :: r =>
    if c1 = '<' then
      if c2 = '@' then
        (digitRun r).map fun p =>
          (match users.find? (fun u => u.id == String.mk p.1) with
           | some u => '@' :: u.username.data
           | none => [], p.2)
      else none
    else none
  | _ => none

/-- Embedding of `replace_mentions` (`formatter.py` lines 26–41). -/
def replace_mentions (text : String) (usernames_ids : List UserRef) : String :=
  String.mk (scanRw (mentionAt usernames_ids) text.data.length text.data)

/-- Matcher for `match_role = <@&(\d*?)>` with the replacement of
`replace_roles`; the `for`–`else` of the source appends `@unknown_role` when no
role id matches. -/
def roleAt (roles : List Role) : List Char → Option (List Char × List Char)
  | c1 :: c2 :: c3 :: r =>
    if c1 = '<' then
      if c2 = '@' then
        if c3 = '&' then
          (digitRun r).map fun p =>
            (match roles.find? (fun role => role.id == String.mk p.1) with
             | some role => '@' :: role.name.data
             | none => "@unknown_role".data, p.2)
        else none
      else none
    else none
  | _ => none

/-- Embedding of `replace_roles` (`formatter.py` lines 44–61). -/
def replace_roles (text : String) (roles_ids : List Role) : String :=
  String.mk (scanRw (roleAt roles_ids) text.data.length text.data)

/-- Matcher for `match_channel = <#(\d*?)>` with the replacement of
`replace_channels`; the `for`–`else` appends `@unknown_channel` when no
channel id matches. -/
def channelAt (channels : List Chan) : List Char → Option (List Char × List Char)
  | c1 :: c2 :: r =>
    if c1 = '<' then
      if c2 = '#' then
        (digitRun r).map fun p =>
          (match channels.find? (fun ch => ch.id == String.mk p.1) with
           | some ch => '#' :: ch.name.data
           | none => "@unknown_channel".data, p.2)
      else none
    else none
  | _ => none

/-- Embedding of `replace_channels` (`formatter.py` lines 79–96). -/
def replace_channels (text : String) (channels_ids : List Chan) : String :=
  String.mk (scanRw (channelAt channels_ids) text.data.length text.data)

/-- Drop a literal character sequence from the front of the text, or fail. -/
def dropLit : List Char → List Char → Option (List Char)
  | [], cs => some cs
  | p :: ps, c :: cs => if c = p then dropLit ps cs else none
  | _ :: _, [] => none

/-- Matcher for `match_discord_channel_url =
`https:\/\/discord\.com\/channels\/(\d*)\/(\d*)(?:\/(\d*))?`` with the
replacement of `replace_discord_url`: `<#group2>>MSG` when group 3 matched a
non-empty digit run (Python `if match.group(3):` — `None` and `""` are both
falsy), else `<#group2>`.  The greedy `\d*` groups take maximal digit runs
(no backtracking can help, since the following literal is never a digit). -/
def urlAt (cs : List Char) : Option (List Char × List Char) :=
  match dropLit "https://discord.com/channels/".data cs with
  | none => none
  | some r1 =>
    match r1.dropWhile Char.isDigit with
    | c :: r2 =>
      if c = '/' then
        let g2 := r2.takeWhile Char.isDigit
        match r2.dropWhile Char.isDigit with
        | c2 :: r4 =>
          if c2 = '/' then
            let g3 := r4.takeWhile Char.isDigit
            let tail := r4.dropWhile Char.isDigit
            if g3 = [] then some ("<#".data ++ g2 ++ ">".data, tail)
            else some ("<#".data ++ g2 ++ ">>MSG".data, tail)
          else some ("<#".data ++ g2 ++ ">".data, c2 :: r4)
        | [] => some ("<#".data ++ g2 ++ ">".data, [])
      else none
    | [] => none

/-- Embedding of `replace_discord_url` (`formatter.py` lines 64–76). -/
def replace_discord_url (text : String) : String :=
  String.mk (scanRw urlAt text.data.length text.data)

/-- The `(.*?):(\d*?)>` suffix of the emoji pattern: the lazy `(.*?)` grows the
emoji name one character at a time (never across `\n`, which `.` does not
match); at each `:` the engine first tries to finish with `\d*?>`, and only on
failure does the `:` join the name.  Returns the name (group 2) and the text
after the match. -/
def emojiBody : List Char → List Char → Option (List Char × List Char)
  | [], _ => none
  | c :: r, acc =>
    if c = '\n' then none
    else if c = ':' then
      match digitRun r with
      | some p => some (acc.reverse, p.2)
      | none => emojiBody r (c :: acc)
    else emojiBody r (c :: acc)

/-- Matcher for `match_d_emoji = <(.?):(.*?):(\d*?)>` with the replacement
`:name:` of `replace_discord_emoji`.  The lazy `(.?)` first tries to match
nothing; only if no match completes from there does it consume one (non-`\n`)
character. -/
def emojiAt : List Char → Option (List Char × List Char)
  | c1 :: r1 =>
    if c1 = '<' then
      let attempt0 :=
        match r1 with
        | c2 :: r2 => if c2 = ':' then emojiBody r2 [] else none
        | [] => none
      match attempt0 with
      | some (g2, tail) => some (':' :: g2 ++ [':'], tail)
      | none =>
        match r1 with
        | g1 :: c2 :: r2 =>
          if g1 = '\n' then none
          else if c2 = ':' then
            (emojiBody r2 []).map fun p => (':' :: p.1 ++ [':'], p.2)
          else none
        | _ => none
    else none
  | [] => none

/-- Embedding of `replace_discord_emoji` (`formatter.py` lines 11–23). -/
def replace_discord_emoji (text : String) : String :=
  String.mk (scanRw emojiAt text.data.length text.data)

/-- Embedding of `clean_type` (`formatter.py` lines 99–104): part of the type before the
first `/`. -/
def clean_type (embed_type : String) : String :=
  (embed_type.splitOn "/").headD ""

/-! ## Formatter: poll rendering and `build_message` -/

/-- One entry of `poll["options"]` (fields used by `format_poll`).  Vote counts
are natural numbers (the source applies `int(...)` when summing them). -/
structure PollOption where
  answer : String
  count : Nat
  me_voted : Bool
  deriving DecidableEq, Repr

/-- The `poll` payload (fields used by `format_poll`); `expires` is a unix
timestamp in seconds. -/
structure Poll where
  question : String
  options : List PollOption
  expires : Nat
  deriving DecidableEq, Repr

/-- Round-half-to-even of the exact quotient `num / den` (`den ≠ 0`), the exact
arithmetic reading of the Python `round((answer_votes / total_votes) * 100)`
(the Python `round` ties to even).  Instantiated with `num = count * 100` and
`den = total`. -/
def roundHalfEven (num den : Nat) : Nat :=
  let q := num / den
  let r := num % den
  if 2 * r < den then q
  else if den < 2 * r then q + 1
  else if q % 2 = 0 then q else q + 1

/-- Sum of all option vote counts (`total_votes` in `format_poll`). -/
def totalVotes (poll : Poll) : Nat :=
  (poll.options.map PollOption.count).sum

/-- The option line built inside the second loop of `format_poll`:
`  {marker} {answer} ({votes} votes, {percent}%)` with the
`total_votes` branch of the source. -/
def pollOptionLine (total : Nat) (o : PollOption) : String :=
  let answer_votes := if total ≠ 0 then o.count else 0
  let percent := if total ≠ 0 then roundHalfEven (o.count * 100) total else 0
  "  " ++ (if o.me_voted then "*" else "-") ++ " " ++ o.answer ++
    " (" ++ toString answer_votes ++ " votes, " ++ toString percent ++ "%)"

/-- Embedding of `format_poll` (`formatter.py` lines 107–134).  `now` is `time.time()` in
seconds. -/
def format_poll (poll : Poll) (now : Nat) : String :=
  let status := if poll.expires < now then "ended" else "ongoing"
  let expires_word := if poll.expires < now then "Ended" else "Ends"
  let content_list :=
    ["*Poll (" ++ status ++ "):*", poll.question] ++
      poll.options.map (pollOptionLine (totalVotes poll)) ++
      [expires_word ++ " <t:" ++ toString poll.expires ++ ":R>"]
  stripNL (String.join (content_list.map (fun line => "> " ++ line ++ "\n")))

/-- The `interaction` payload (fields used by `build_message`). -/
structure Interaction where
  username : String
  command : String
  deriving DecidableEq, Repr

/-- A sticker entry (fields used by `build_message`). -/
structure Sticker where
  name : String
  format_type : Nat
  deriving DecidableEq, Repr

/-- An incoming embed as inspected by `build_message`: `url` may be JSON null
(`embed["url"]` direct access, then truthiness), `hidden` is read with
`.get` (absent ⇒ falsy), `has_main_url` models `"main_url" in embed`. -/
structure EmbedIn where
  url : Option String
  hidden : Bool
  has_main_url : Bool
  type : String
  deriving DecidableEq, Repr

/-- The normalized message payload consumed by the relay loops and
`build_message`.  Fields mirror the keys produced by the gateway event
normalization: author identity (`user_id`, `username`, `global_name`, `nick`,
`avatar_id`), `content`, `mentions`, `embeds`, `stickers`, `interaction`,
optional `poll` (`none` models the key being absent) and optional
`referenced_message`.  `user_id` is an `Option` because the loops read it with
`data.get("user_id")` and `MESSAGE_DELETE` payloads lack the key. -/
structure RefMessage where
  id : String
  user_id : String
  mentions : List UserRef
  deriving DecidableEq, Repr

structure MsgData where
  id : String
  channel_id : String
  guild_id : Option String
  user_id : Option String
  username : Option String
  global_name : Option String
  nick : Option String
  avatar_id : Option String
  content : String
  mentions : List UserRef
  embeds : List EmbedIn
  stickers : List Sticker
  interaction : Option Interaction
  poll : Option Poll
  referenced_message : Option RefMessage
  deriving DecidableEq, Repr

/-- the Python `needle in haystack` on strings: substring containment. -/
def isInfixChars (needle : List Char) : List Char → Bool
  | [] => needle.isPrefixOf []
  | c :: t => needle.isPrefixOf (c :: t) || isInfixChars needle t

/-- The embed-appending loop of `build_message` (lines 156–166): for each embed
with a truthy, non-hidden `url` not already contained in the text, append one
rendered line. -/
def appendEmbedLine (content : String) (embed : EmbedIn) : String :=
  match embed.url with
  | none => content
  | some u =>
    if u ≠ "" ∧ embed.hidden = false ∧ isInfixChars u.data content.data = false then
      let sep := if content ≠ "" then "\n" else ""
      if ¬ embed.has_main_url then
        content ++ sep ++ "[(" ++ clean_type embed.type ++ " attachment)](" ++ u ++ ")"
      else if embed.type = "rich" then
        content ++ sep ++ "(rich embed):\n" ++ u
      else
        content ++ sep ++ "[(" ++ clean_type embed.type ++ " embed)](" ++ u ++ ")"
    else content

/-- The sticker-appending loop of `build_message` (lines 168–179). -/
def appendStickerLine (content : String) (sticker : Sticker) : String :=
  let sep := if content ≠ "" then "\n" else ""
  if sticker.format_type = 1 then
    content ++ sep ++ "[(png sticker)](" ++ sticker.name ++ ")"
  else if sticker.format_type = 2 then
    content ++ sep ++ "[(apng sticker)](" ++ sticker.name ++ ")"
  else if sticker.format_type = 3 then
    content ++ sep ++ "(lottie sticker: " ++ sticker.name ++ ")"
  else
    content ++ sep ++ "[(gif sticker)](" ++ sticker.name ++ ")"

/-- Embedding of `build_message` (`formatter.py` lines 137–181).  `now` is `time.time()` in
seconds, passed through to `format_poll`.  Note the rendering in the source of a
non-empty content: after `if content: content += "\n"` the very next line
rebinds `content = replace_discord_emoji(message["content"])`, so the
interaction prefix (and the appended newline) are discarded whenever the
message content is non-empty; the translation reproduces that rebinding. -/
def build_message (message : MsgData) (roles : List Role) (channels : List Chan)
    (now : Nat) : String :=
  let content0 :=
    match message.interaction with
    | some i => "╭──⤙ " ++ i.username ++ " used [" ++ i.command ++ "]"
    | none => ""
  let messageContent :=
    match message.poll with
    | some poll => format_poll poll now
    | none => message.content
  let content1 := if messageContent ≠ "" then
      replace_channels
        (replace_discord_url
          (replace_roles
            (replace_mentions (replace_discord_emoji messageContent) message.mentions)
            roles))
        channels
    else content0
  let content2 := message.embeds.foldl appendEmbedLine content1
  message.stickers.foldl appendStickerLine content2

/-! ## REST client (`src/bridge/discord.py`) -/

/-- The numeric value of `generate_nonce` (`discord.py` lines 13–15):
`(int(time.time() * 1000) - 1420070400 * 1000) << 22`, with `nowMs` the
current unix time in milliseconds.  the Python `<<` on (unbounded) ints is
multiplication by `2^22`. -/
def nonceVal (nowMs : Int) : Int :=
  (nowMs - 1420070400000) * 2 ^ 22

/-- Embedding of `generate_nonce`: the stringified snowflake-style nonce. -/
def generate_nonce (nowMs : Int) : String :=
  toString (nonceVal nowMs)

/-- The `message_reference` object added by `send_message`:
`{message_id, channel_id}` plus `guild_id` when `reply_guild_id` is truthy. -/
structure MessageReference where
  message_id : String
  channel_id : String
  guild_id : Option String
  deriving DecidableEq, Repr

/-- The `allowed_mentions` object added by `send_message`: `parse` always,
`replied_user` only on the branch that sets it. -/
structure AllowedMentions where
  parse : List String
  replied_user : Option Bool
  deriving DecidableEq, Repr

/-- Author part of an outgoing embed built by the relay loops. -/
structure EmbedAuthor where
  name : String
  icon_url : Option String
  deriving DecidableEq, Repr

/-- An outgoing embed (`{"type": "rich", "author": ..., "description": ...}`
in `main.py`). -/
structure EmbedOut where
  type : String
  author : EmbedAuthor
  description : String
  deriving DecidableEq, Repr

/-- The JSON body built by `send_message` (`discord.py` lines 70–114).  The
optional fields model keys that are only conditionally added to
`message_dict`.  The attachment/sticker branches (lines 95–113) are not
modelled: every `send_message` call in this repository passes
`attachments=None, stickers=None`, and those branches do not touch
`message_reference` or `allowed_mentions`. -/
structure MessagePayload where
  content : String
  tts : String
  flags : Nat
  nonce : String
  message_reference : Option MessageReference
  allowed_mentions : Option AllowedMentions
  embeds : Option (List EmbedOut)
  deriving DecidableEq, Repr

/-- The pure payload construction of `send_message` (`discord.py` lines
72–114): base dict with `content`/`tts`/`flags`/`nonce`; `message_reference`
when `reply_id and reply_channel_id` is truthy, with `guild_id` when
`reply_guild_id` is truthy; on `not reply_ping`, `allowed_mentions` with
`parse` only when `reply_guild_id` is truthy, and with `parse` plus
`replied_user: false` otherwise; `embeds` key added when `embeds` is truthy
(non-empty). -/
def sendMessagePayload (nowMs : Int) (message_content : String)
    (reply_id reply_channel_id reply_guild_id : Option String)
    (reply_ping : Bool) (embeds : List EmbedOut) : MessagePayload :=
  let base : MessagePayload :=
    { content := message_content, tts := "false", flags := 0,
      nonce := generate_nonce nowMs, message_reference := none,
      allowed_mentions := none, embeds := none }
  let withRef :=
    if pyTruthy reply_id ∧ pyTruthy reply_channel_id then
      let mr : MessageReference :=
        { message_id := reply_id.getD "", channel_id := reply_channel_id.getD "",
          guild_id := if pyTruthy reply_guild_id then reply_guild_id else none }
      let am : Option AllowedMentions :=
        if reply_ping = false then
          if pyTruthy reply_guild_id then
            some { parse := ["users", "roles", "everyone"], replied_user := none }
          else
            some { parse := ["users", "roles", "everyone"], replied_user := some false }
        else none
      { base with message_reference := some mr, allowed_mentions := am }
    else base
  { withRef with embeds := if embeds ≠ [] then some embeds else none }

/-- The JSON body built by `send_update_message` (`discord.py` lines 132–139):
`content` always, `embeds` key only when truthy. -/
structure UpdatePayload where
  content : String
  embeds : Option (List EmbedOut)
  deriving DecidableEq, Repr

/-- Payload construction of `send_update_message`. -/
def updateMessagePayload (message_content : String) (embeds : List EmbedOut) :
    UpdatePayload :=
  { content := message_content,
    embeds := if embeds ≠ [] then some embeds else none }

/-- Outcome of one HTTPS request: a status code, or a network error
(`socket.gaierror` — DNS failure — or `TimeoutError`, the exceptions caught by
the REST methods). -/
inductive HttpOutcome where
  | response (status : Nat)
  | networkError
  deriving DecidableEq, Repr

/-- Result mapping of `send_delete_message` (`discord.py` lines 156–172):
`None` on a caught network exception; otherwise `True` iff the status is 204
and `False` for every other status. -/
def send_delete_message (outcome : HttpOutcome) : Option Bool :=
  match outcome with
  | .networkError => none
  | .response status => if status ≠ 204 then some false else some true

/-! ## Gateway event normalization (`src/bridge/gateway.py`)

Only the `MESSAGE_DELETE` branch of the receiver dispatch (lines 260–269) is
claimed about; it is modelled at the dictionary level so that the set of keys
of the buffered payload is visible.  A dictionary is an association list of
keys to JSON values, where a value is a string or null. -/

/-- The `ready_data` dictionary built by the receiver for a `MESSAGE_DELETE`
dispatch (`gateway.py` lines 261–265): exactly the keys `id`, `channel_id` and
`guild_id`, where `guild_id` is `data.get("guild_id")` and may be null. -/
def messageDeleteReadyData (idv channel_idv : String) (guild_idv : Option String) :
    List (String × Option String) :=
  [("id", some idv), ("channel_id", some channel_idv), ("guild_id", guild_idv)]

/-- Keys of a dictionary. -/
def dictKeys (d : List (String × Option String)) : List String :=
  d.map Prod.fst

/-- the Python `dict.get(key)`: `none` when the key is absent, `some v` (with
`v` possibly null, i.e. `none`) when present. -/
def dictGet (d : List (String × Option String)) (key : String) :
    Option (Option String) :=
  (d.find? (fun kv => kv.1 == key)).map Prod.snd

/-! ## Bridge engine (`src/main.py`)

`loop_a` (lines 158–299) and `loop_b` (lines 302–439) are textually identical
up to swapping the A/B roles (gateway, pair store, REST client, CDN host and
target guild id); `relayStep` is the common translation of the processing of one
buffered event, instantiated per direction.  The pair stores and the REST
responses are oracles: lookups are input functions, and mutations/REST calls
are returned as an action list in program order. -/

/-- Embedding of `get_author_name` (`main.py` lines 24–32): fallback chain
`nick → global_name → username → "Unknown"` with Python truthiness. -/
def get_author_name (message : MsgData) : String :=
  if pyTruthy message.nick then message.nick.getD ""
  else if pyTruthy message.global_name then message.global_name.getD ""
  else if pyTruthy message.username then message.username.getD ""
  else "Unknown"

/-- Embedding of `get_author_pfp` (`main.py` lines 35–40): avatar URL when `avatar_id` is
truthy, else `None`.  (`message["user_id"]` is a direct key access; the
normalized create/update payloads always carry it.) -/
def get_author_pfp (message : MsgData) (cdn_url : String) (size : Nat) :
    Option String :=
  if pyTruthy message.avatar_id then
    some ("https://" ++ cdn_url ++ "/avatars/" ++ message.user_id.getD "" ++ "/" ++
      message.avatar_id.getD "" ++ ".webp?size=" ++ toString size)
  else none

/-- One buffered gateway event as consumed by the relay loops
(`{"op": ..., "d": ...}`). -/
structure GEvent where
  op : String
  d : MsgData
  deriving DecidableEq, Repr

/-- Per-direction configuration of a relay loop: the bot id of the consuming
gateway (`my_id_x`), the source→target channel map (`bridges_x`, whose keys are
`channels_x` and whose pair names are `bridges_x_txt` — all three are built in
lockstep from the config in `Bridge.__init__`, lines 78–88), the target-side
guild id and the source-side CDN host, plus the formatter tables and the two
time parameters. -/
structure RelayEnv where
  myId : String
  bridges : List (String × String)
  guildIdTarget : Option String
  cdn : String
  roles : List Role
  chanTable : List Chan
  nowMs : Int
  nowS : Nat
  deriving Repr

/-- The list `channels_x`: the configured source channels of the direction. -/
def RelayEnv.srcChannels (env : RelayEnv) : List String :=
  env.bridges.map Prod.fst

/-- The list `bridges_x_txt`: the initialized pair-table names of the direction. -/
def RelayEnv.pairsTxt (env : RelayEnv) : List String :=
  env.bridges.map (fun p => "pair_" ++ p.1 ++ "_" ++ p.2)

/-- The lookup `self.bridges_x[source_channel]`: the target channel mapped to a source
channel. -/
def RelayEnv.targetOf (env : RelayEnv) (src : String) : String :=
  ((env.bridges.find? (fun p => p.1 == src)).map Prod.snd).getD ""

/-- An observable effect of one relay-loop iteration, in program order: a REST
call on the target side, or a mutation of the own pair store of the direction. -/
inductive Action where
  | restSend (channelId : String) (payload : MessagePayload)
  | restUpdate (channelId messageId : String) (payload : UpdatePayload)
  | restDelete (channelId messageId : String)
  | storeAddPair (pairId sourceId targetId : String)
  | storeDeletePair (pairId sourceId : String)
  deriving DecidableEq, Repr

/-- The reply-target resolution of the `MESSAGE_CREATE` branch (`main.py`
lines 177–184 / 321–328): when the referenced message was authored by the bot
itself, look up `get_source` on the opposite pair store under
`pair_<tgt>_<src>`; otherwise `get_target` on the own pair store under
`pair_<src>_<tgt>`; `None` without a referenced message.
`ownGetTarget`/`oppGetSource` are the own-store `get_target` of the direction
and `get_source` on the opposite store. -/
def relayRefId (env : RelayEnv)
    (ownGetTarget oppGetSource : String → String → Option String)
    (data : MsgData) : Option String :=
  match data.referenced_message with
  | some ref =>
    if ref.user_id = env.myId then
      oppGetSource
        ("pair_" ++ env.targetOf data.channel_id ++ "_" ++ data.channel_id) ref.id
    else
      ownGetTarget
        ("pair_" ++ data.channel_id ++ "_" ++ env.targetOf data.channel_id) ref.id
  | none => none

/-- The `reply_ping` flag of the `MESSAGE_CREATE` branch (`main.py` lines
185–193 / 329–337): whether any mention of the referenced message is the bot
itself; `True` when there is no referenced message. -/
def relayRefPing (env : RelayEnv) (data : MsgData) : Bool :=
  match data.referenced_message with
  | some ref => ref.mentions.any (fun m => m.id == env.myId)
  | none => true

/-- The author-framed embed list built in the `MESSAGE_CREATE` and
`MESSAGE_UPDATE` branches (`main.py` lines 194–209 etc.), with the
`*Unknown message content*` substitution for an empty rendering. -/
def relayEmbed (env : RelayEnv) (data : MsgData) : List EmbedOut :=
  let message_text0 := build_message data env.roles env.chanTable env.nowS
  let message_text :=
    if message_text0 = "" then "*Unknown message content*" else message_text0
  [{ type := "rich",
     author := { name := get_author_name data,
                 icon_url := get_author_pfp data env.cdn 80 },
     description := message_text }]

/-- The pair-store insertion after a successful `send_message` (`main.py`
lines 221–227 / 366–372): only when the returned id is truthy and the pair
table was initialized. -/
def relayStoreActs (env : RelayEnv) (sendResult : Option String)
    (data : MsgData) : List Action :=
  if pyTruthy sendResult then
    let channel_pair := "pair_" ++ data.channel_id ++ "_" ++ env.targetOf data.channel_id
    if channel_pair ∈ env.pairsTxt then
      [Action.storeAddPair channel_pair data.id (sendResult.getD "")]
    else []
  else []

/-- The `MESSAGE_CREATE` branch of the relay loop (`main.py` lines 170–227 /
314–372): one `send_message` call on the target channel with an empty content,
the resolved reply reference, the ping flag and the author-framed embed,
followed by the conditional pair-store insertion; `sendResult` is what
`send_message` returned. -/
def relayCreate (env : RelayEnv)
    (ownGetTarget oppGetSource : String → String → Option String)
    (sendResult : Option String) (data : MsgData) : List Action :=
  Action.restSend (env.targetOf data.channel_id)
    (sendMessagePayload env.nowMs ""
      (relayRefId env ownGetTarget oppGetSource data)
      (some (env.targetOf data.channel_id))
      env.guildIdTarget
      (relayRefPing env data)
      (relayEmbed env data)) ::
  relayStoreActs env sendResult data

/-- The `MESSAGE_UPDATE` branch of the relay loop (`main.py` lines 229–263 /
374–408). -/
def relayUpdate (env : RelayEnv)
    (ownGetTarget : String → String → Option String) (data : MsgData) :
    List Action :=
  let source_channel := data.channel_id
  let target_channel := env.targetOf source_channel
  let channel_pair := "pair_" ++ source_channel ++ "_" ++ target_channel
  if channel_pair ∈ env.pairsTxt then
    match ownGetTarget channel_pair data.id with
    | some target_message =>
      if target_message ≠ "" then
        let author_name := get_author_name data
        let author_pfp := get_author_pfp data env.cdn 80
        let message_text0 := build_message data env.roles env.chanTable env.nowS
        let message_text :=
          if message_text0 = "" then "*Unknown message content*" else message_text0
        let embeds : List EmbedOut :=
          [{ type := "rich", author := { name := author_name, icon_url := author_pfp },
             description := message_text }]
        [Action.restUpdate target_channel target_message
          (updateMessagePayload "" embeds)]
      else []
    | none => []
  else []

/-- The `MESSAGE_DELETE` branch of the relay loop (`main.py` lines 265–277 /
410–422). -/
def relayDelete (env : RelayEnv)
    (ownGetTarget : String → String → Option String) (data : MsgData) :
    List Action :=
  let source_channel := data.channel_id
  let target_channel := env.targetOf source_channel
  let channel_pair := "pair_" ++ source_channel ++ "_" ++ target_channel
  if channel_pair ∈ env.pairsTxt then
    match ownGetTarget channel_pair data.id with
    | some target_message =>
      if target_message ≠ "" then
        [Action.restDelete target_channel target_message,
         Action.storeDeletePair channel_pair data.id]
      else []
    | none => []
  else []

/-- Processing of one polled event by a relay loop (`main.py` lines 164–288 /
308–428): the channel filter and echo filter
(`data["channel_id"] in self.channels_x and data.get("user_id") != self.my_id_x`,
line 167 / 311) guard the whole dispatch; reaction events are placeholders
(no behavior). -/
def relayStep (env : RelayEnv)
    (ownGetTarget oppGetSource : String → String → Option String)
    (sendResult : Option String) (ev : GEvent) : List Action :=
  if ev.d.channel_id ∈ env.srcChannels ∧ ev.d.user_id ≠ some env.myId then
    if ev.op = "MESSAGE_CREATE" then
      relayCreate env ownGetTarget oppGetSource sendResult ev.d
    else if ev.op = "MESSAGE_UPDATE" then
      relayUpdate env ownGetTarget ev.d
    else if ev.op = "MESSAGE_DELETE" then
      relayDelete env ownGetTarget ev.d
    else []
  else []

/-- The per-iteration gateway error check of `loop_a` (`main.py` line 294):
`loop_a` tests `self.gateway_a.error` and exits when it is truthy.  Arguments
are the error fields of gateway A and gateway B. -/
def loopAExits (errA _errB : Option String) : Bool :=
  pyTruthy errA

/-- The per-iteration gateway error check of `loop_b` (`main.py` line 434):
the source tests `self.gateway_a.error` — the error field of gateway A, not that of gateway B —
and exits when it is truthy.  Arguments are the error fields of gateway A and
gateway B. -/
def loopBExits (errA _errB : Option String) : Bool :=
  pyTruthy errA

/-! ## Sample data for witnesses and counterexamples -/

/-- A sample normalized `MESSAGE_CREATE` payload. -/
def sampleMsg : MsgData where
  id := "100"
  channel_id := "CA"
  guild_id := some "GA"
  user_id := some "u9"
  username := some "u"
  global_name := none
  nick := none
  avatar_id := none
  content := "hi"
  mentions := []
  embeds := []
  stickers := []
  interaction := none
  poll := none
  referenced_message := none

/-- A sample relay direction: one configured channel pair `CA → CB`. -/
def sampleEnv : RelayEnv where
  myId := "MYA"
  bridges := [("CA", "CB")]
  guildIdTarget := some "GB"
  cdn := "cdn.example"
  roles := []
  chanTable := []
  nowMs := 1700000000000
  nowS := 1700000000

/-- Pair-store oracle that knows nothing. -/
def emptyStore : String → String → Option String := fun _ _ => none

/-! ## Claim theorems -/

/-- C1: for every event polled by a relay loop, if the payload carries
`user_id` equal to the consuming gateway `my_id`, the whole dispatch is
skipped: no REST call is made and the pair store is not modified (the action
list is empty). -/
theorem c1_echo_suppression (env : RelayEnv)
    (own opp : String → String → Option String) (res : Option String)
    (ev : GEvent) (h : ev.d.user_id = some env.myId) :
    relayStep env own opp res ev = [] := by
  simp [relayStep, h]

/-- Witness for C1: a concrete event authored by the bot itself produces no
actions. -/
theorem c1_echo_suppression_witness :
    ({ op := "MESSAGE_CREATE", d := { sampleMsg with user_id := some "MYA" } } :
        GEvent).d.user_id = some sampleEnv.myId ∧
    relayStep sampleEnv emptyStore emptyStore (some "200")
      { op := "MESSAGE_CREATE", d := { sampleMsg with user_id := some "MYA" } } = [] :=
  ⟨rfl, c1_echo_suppression sampleEnv emptyStore emptyStore (some "200") _ rfl⟩

/-- C3: `loop_a` checks the error field of the gateway it consumes from
(gateway A, `main.py` line 294), but `loop_b` also checks gateway A
(`main.py` line 434) rather than gateway B: with gateway B errored and
gateway A healthy, `loop_b` does not exit. -/
theorem c3_loop_b_checks_wrong_gateway :
    loopBExits none (some "Traceback: boom") = false ∧
    loopAExits (some "Traceback: boom") none = true := by
  constructor <;> rfl

/-- C5: `build_message` discards the interaction prefix whenever the message
also has non-empty content, because `content` is rebound to the rewritten
message content; the prefix only survives when the content is empty. -/
theorem c5_interaction_prefix_lost :
    build_message
      { sampleMsg with interaction := some ⟨"u", "cmd"⟩, content := "hi" }
      [] [] 0 = "hi" ∧
    build_message
      { sampleMsg with interaction := some ⟨"u", "cmd"⟩, content := "" }
      [] [] 0 = "╭──⤙ u used [cmd]" := by
  constructor <;> rfl

/-- Counterexample for C6: with `reply_ping = false` and `reply_guild_id`
supplied, the payload includes `allowed_mentions` but omits
`replied_user: false`. -/
theorem c6_replied_user_counterexample :
    (sendMessagePayload 0 "" (some "5") (some "7") (some "9") false
        []).allowed_mentions =
      some { parse := ["users", "roles", "everyone"], replied_user := none } ∧
    (sendMessagePayload 0 "" (some "5") (some "7") (some "9") false
        []).allowed_mentions.bind AllowedMentions.replied_user ≠ some false := by
  constructor
  · rfl
  · decide

/-- C6 (amended): with `reply_id` and `reply_channel_id` truthy and
`reply_ping = false`, `allowed_mentions.parse = ["users","roles","everyone"]`
always, while `replied_user = false` is included only when `reply_guild_id` is
not supplied (falsy); when it is supplied, `allowed_mentions` carries only
`parse`. -/
theorem c6_allowed_mentions (nowMs : Int) (content : String)
    (rid rch g : Option String) (embeds : List EmbedOut)
    (h1 : pyTruthy rid = true) (h2 : pyTruthy rch = true) :
    (sendMessagePayload nowMs content rid rch g false embeds).allowed_mentions =
      some { parse := ["users", "roles", "everyone"],
             replied_user := if pyTruthy g then none else some false } := by
  by_cases hg : pyTruthy g = true <;>
    simp [sendMessagePayload, h1, h2, hg]

/-- Witness for C6: concrete payloads on both sides of the `reply_guild_id`
branch. -/
theorem c6_allowed_mentions_witness :
    (sendMessagePayload 0 "" (some "5") (some "7") none false
        []).allowed_mentions =
      some { parse := ["users", "roles", "everyone"], replied_user := some false } := by
  have h := c6_allowed_mentions 0 "" (some "5") (some "7") none [] rfl rfl
  simpa using h

/-- Counterexample for C7: on a 5xx response (status 500) the function does
return `false`, contradicting the claim that `false` is only returned on
non-5xx statuses. -/
theorem c7_5xx_counterexample :
    send_delete_message (.response 500) = some false := by
  rfl

/-- C7 (amended): `send_delete_message` returns `true` exactly on HTTP 204,
`false` on every other HTTP status (5xx included), and `nil` on a network
error (timeout or DNS failure). -/
theorem c7_send_delete_message (status : Nat) :
    (send_delete_message (.response status) =
      if status = 204 then some true else some false) ∧
    send_delete_message .networkError = none ∧
    (send_delete_message (.response status) = some true ↔ status = 204) := by
  refine ⟨?_, rfl, ?_⟩ <;> by_cases h : status = 204 <;>
    simp [send_delete_message, h]

/-- Counterexample for C8: two calls within the same millisecond yield equal,
not strictly increasing, nonces. -/
theorem c8_same_ms_counterexample :
    (1700000000000 : Int) ≤ 1700000000000 ∧
    ¬ nonceVal 1700000000000 < nonceVal 1700000000000 :=
  ⟨le_refl _, lt_irrefl _⟩

/-- C8 (amended): the nonce equals `(unix_ms - 1420070400000) << 22`; as a
function of the call time it is strictly increasing across distinct
milliseconds and merely non-decreasing (indeed constant) within a
millisecond. -/
theorem c8_nonce_monotone (nowMs1 nowMs2 : Int) :
    generate_nonce nowMs1 = toString ((nowMs1 - 1420070400000) * 2 ^ 22) ∧
    (nowMs1 < nowMs2 → nonceVal nowMs1 < nonceVal nowMs2) ∧
    (nowMs1 ≤ nowMs2 → nonceVal nowMs1 ≤ nonceVal nowMs2) := by
  refine ⟨rfl, fun h => ?_, fun h => ?_⟩ <;> unfold nonceVal
  · have : nowMs1 - 1420070400000 < nowMs2 - 1420070400000 := by linarith
    exact mul_lt_mul_of_pos_right this (by norm_num)
  · have : nowMs1 - 1420070400000 ≤ nowMs2 - 1420070400000 := by linarith
    exact mul_le_mul_of_nonneg_right this (by norm_num)

/-- Witness for C8: strict growth across one millisecond at a concrete time. -/
theorem c8_nonce_monotone_witness :
    nonceVal 1700000000000 < nonceVal 1700000000001 :=
  (c8_nonce_monotone 1700000000000 1700000000001).2.1 (by norm_num)

/-- Helper: a configured source channel always has its pair name in the
initialized pair-table list, because `channels_x`, `bridges_x` and
`bridges_x_txt` are built in lockstep. -/
theorem targetOf_pair_mem (env : RelayEnv) (src : String)
    (h : src ∈ env.srcChannels) :
    ("pair_" ++ src ++ "_" ++ env.targetOf src) ∈ env.pairsTxt := by
  obtain ⟨p, hp, hfst⟩ := List.mem_map.1 h
  have hsome : (env.bridges.find? (fun q => q.1 == src)).isSome := by
    rw [List.find?_isSome]
    exact ⟨p, hp, by simp [hfst]⟩
  obtain ⟨q, hq⟩ := Option.isSome_iff_exists.1 hsome
  have hqmem : q ∈ env.bridges := List.mem_of_find?_eq_some hq
  have hq1 : q.1 = src := by simpa using List.find?_some hq
  have htq : env.targetOf src = q.2 := by
    simp [RelayEnv.targetOf, hq]
  rw [htq, RelayEnv.pairsTxt]
  exact List.mem_map.2 ⟨q, hqmem, by rw [hq1]⟩

/-- Helper: the relay step on a `MESSAGE_CREATE` event passing both filters is
the `MESSAGE_CREATE` branch. -/
theorem relayStep_create (env : RelayEnv)
    (own opp : String → String → Option String) (res : Option String)
    (d : MsgData) (hch : d.channel_id ∈ env.srcChannels)
    (hecho : d.user_id ≠ some env.myId) :
    relayStep env own opp res { op := "MESSAGE_CREATE", d := d } =
      relayCreate env own opp res d := by
  simp [relayStep, hch, hecho]

/-- Helper: the `message_reference` part of a `send_message` payload, as a
function of the reply arguments. -/
theorem sendMessagePayload_message_reference (nowMs : Int) (content : String)
    (rid rch g : Option String) (ping : Bool) (embeds : List EmbedOut) :
    (sendMessagePayload nowMs content rid rch g ping embeds).message_reference =
      if pyTruthy rid ∧ pyTruthy rch then
        some { message_id := rid.getD "", channel_id := rch.getD "",
               guild_id := if pyTruthy g then g else none }
      else none := by
  by_cases h : pyTruthy rid = true ∧ pyTruthy rch = true <;>
    simp [sendMessagePayload, h]

/-- Helper: a non-empty string wrapped in `some` is truthy. -/
theorem pyTruthy_some_of_ne (s : String) (h : s ≠ "") :
    pyTruthy (some s) = true := by
  have hempty : s.isEmpty = false := by
    rw [← Bool.not_eq_true, String.isEmpty_iff]
    exact h
  simp [pyTruthy, hempty]

/-- C2: for a `MESSAGE_CREATE` event with a referenced message, the reply
target is resolved through `get_source` on the opposite pair store under
`pair_<tgt>_<src>` when the referenced author is the bot itself, and through
`get_target` on the own pair store under `pair_<src>_<tgt>` otherwise; when
the lookup yields an id, the outgoing `send_message` payload carries
`message_reference.message_id` equal to it, and when the lookup yields `nil`
(or there is no referenced message) the payload carries no
`message_reference`. -/
theorem c2_reply_resolution (env : RelayEnv)
    (own opp : String → String → Option String) (res : Option String)
    (d : MsgData)
    (hch : d.channel_id ∈ env.srcChannels)
    (hecho : d.user_id ≠ some env.myId)
    (htgt : env.targetOf d.channel_id ≠ "") :
    (∀ ref : RefMessage, d.referenced_message = some ref →
      ∀ tri : Option String,
        (if ref.user_id = env.myId then
            opp ("pair_" ++ env.targetOf d.channel_id ++ "_" ++ d.channel_id)
              ref.id
          else
            own ("pair_" ++ d.channel_id ++ "_" ++ env.targetOf d.channel_id)
              ref.id) = tri →
        (∀ rid : String, tri = some rid → rid ≠ "" →
          ∃ payload rest,
            relayStep env own opp res { op := "MESSAGE_CREATE", d := d } =
              Action.restSend (env.targetOf d.channel_id) payload :: rest ∧
            payload.message_reference.map MessageReference.message_id =
              some rid) ∧
        (tri = none →
          ∃ payload rest,
            relayStep env own opp res { op := "MESSAGE_CREATE", d := d } =
              Action.restSend (env.targetOf d.channel_id) payload :: rest ∧
            payload.message_reference = none)) ∧
    (d.referenced_message = none →
      ∃ payload rest,
        relayStep env own opp res { op := "MESSAGE_CREATE", d := d } =
          Action.restSend (env.targetOf d.channel_id) payload :: rest ∧
        payload.message_reference = none) := by
  have hstep := relayStep_create env own opp res d hch hecho
  constructor
  · intro ref href tri htri
    have hrefid : relayRefId env own opp d = tri := by
      rw [relayRefId, href]
      exact htri
    constructor
    · intro rid hrid hne
      refine ⟨_, _, by rw [hstep]; rfl, ?_⟩
      rw [sendMessagePayload_message_reference, hrefid, hrid,
        if_pos ⟨pyTruthy_some_of_ne rid hne,
          pyTruthy_some_of_ne _ htgt⟩]
      simp
    · intro hnone
      refine ⟨_, _, by rw [hstep]; rfl, ?_⟩
      rw [sendMessagePayload_message_reference, hrefid, hnone]
      simp [pyTruthy]
  · intro href
    have hrefid : relayRefId env own opp d = none := by
      rw [relayRefId, href]
    refine ⟨_, _, by rw [hstep]; rfl, ?_⟩
    rw [sendMessagePayload_message_reference, hrefid]
    simp [pyTruthy]

/-- Pair-store oracle of the opposite direction for the C2 witness: it knows
that the mirrored message `101` on the source side originated as `55` on the
target side. -/
def sampleOppStore : String → String → Option String := fun pair src =>
  if pair = "pair_CB_CA" ∧ src = "101" then some "55" else none

/-- A create event replying to a message authored by the bot itself. -/
def c2Msg : MsgData :=
  { sampleMsg with referenced_message := some ⟨"101", "MYA", []⟩ }

/-- Witness for C2: the cross-side reply scenario — the resolved id `55` ends
up in `message_reference.message_id` of the outgoing payload. -/
theorem c2_reply_resolution_witness :
    ∃ payload rest,
      relayStep sampleEnv emptyStore sampleOppStore (some "200")
        { op := "MESSAGE_CREATE", d := c2Msg } =
        Action.restSend (sampleEnv.targetOf c2Msg.channel_id) payload :: rest ∧
      payload.message_reference.map MessageReference.message_id = some "55" := by
  have h := (c2_reply_resolution sampleEnv emptyStore sampleOppStore (some "200")
    c2Msg (by decide) (by decide) (by decide)).1 ⟨"101", "MYA", []⟩ rfl
    (some "55") (by decide)
  exact h.1 "55" rfl (by decide)

/-- C10: the normalized `MESSAGE_DELETE` payload buffered by the receiver has
exactly the keys `id`, `channel_id` and `guild_id` — no `user_id` — so the
defaulting `data.get("user_id")` lookup of the echo filter evaluates to `nil`
and never suppresses a delete: with a configured channel and a stored mapping,
the deletion is relayed and the pair removed. -/
theorem c10_delete_never_suppressed :
    (∀ (i c : String) (g : Option String),
      dictKeys (messageDeleteReadyData i c g) = ["id", "channel_id", "guild_id"] ∧
      dictGet (messageDeleteReadyData i c g) "user_id" = none) ∧
    (∀ (env : RelayEnv) (own opp : String → String → Option String)
        (res : Option String) (d : MsgData) (tm : String),
      d.user_id = none →
      d.channel_id ∈ env.srcChannels →
      own ("pair_" ++ d.channel_id ++ "_" ++ env.targetOf d.channel_id) d.id =
        some tm →
      tm ≠ "" →
      relayStep env own opp res { op := "MESSAGE_DELETE", d := d } =
        [Action.restDelete (env.targetOf d.channel_id) tm,
         Action.storeDeletePair
           ("pair_" ++ d.channel_id ++ "_" ++ env.targetOf d.channel_id)
           d.id]) := by
  constructor
  · intro i c g
    exact ⟨rfl, rfl⟩
  · intro env own opp res d tm hu hch hown htm
    have hpair := targetOf_pair_mem env d.channel_id hch
    simp [relayStep, hu, hch, relayDelete, hpair, hown, htm]

/-- Own-store oracle for the C10 witness: the deleted source message `100` is
mapped to the mirror `200`. -/
def sampleOwnStore : String → String → Option String := fun pair src =>
  if pair = "pair_CA_CB" ∧ src = "100" then some "200" else none

/-- Witness for C10: a concrete delete event without `user_id` is relayed. -/
theorem c10_delete_never_suppressed_witness :
    relayStep sampleEnv sampleOwnStore emptyStore none
      { op := "MESSAGE_DELETE", d := { sampleMsg with user_id := none } } =
      [Action.restDelete (sampleEnv.targetOf "CA") "200",
       Action.storeDeletePair ("pair_" ++ "CA" ++ "_" ++ sampleEnv.targetOf "CA")
         "100"] :=
  c10_delete_never_suppressed.2 sampleEnv sampleOwnStore emptyStore none
    { sampleMsg with user_id := none } "200" rfl (by decide) (by decide)
    (by decide)

/-! ## C4: general characterisation of `replace_mentions`

A mention-shaped text is an interleaving of literal segments (free of `<`, so
they can never start a match) and well-formed mention tokens `<@digits>`.
`renderSegsChars` renders such a segment list to text;
`renderSegsSpecChars` is the claimed output: each token with a known id
becomes `@username`, and — as the source actually behaves — each token with an
unknown id is removed. -/

/-- A segment of a mention-shaped text: a literal, or a `<@id>` token. -/
inductive MSeg where
  | lit (s : String)
  | mtok (id : String)
  deriving DecidableEq, Repr

/-- Render a segment list to text. -/
def renderSegsChars : List MSeg → List Char
  | [] => []
  | .lit s :: rest => s.data ++ renderSegsChars rest
  | .mtok id :: rest => '<' :: '@' :: (id.data ++ '>' :: renderSegsChars rest)

/-- The replacement of one mention token: `@username` of the first user whose
id matches, nothing otherwise. -/
def mentionReplSpec (users : List UserRef) (id : String) : String :=
  match users.find? (fun u => u.id == id) with
  | some u => "@" ++ u.username
  | none => ""

/-- The claimed output of `replace_mentions` on a rendered segment list. -/
def renderSegsSpecChars (users : List UserRef) : List MSeg → List Char
  | [] => []
  | .lit s :: rest => s.data ++ renderSegsSpecChars users rest
  | .mtok id :: rest => (mentionReplSpec users id).data ++ renderSegsSpecChars users rest

/-- Well-formedness of a segment: literals contain no `<` (so no match can
start inside them), token ids are digit strings. -/
def segWF : MSeg → Bool
  | .lit s => s.data.all (fun c => !(c == '<'))
  | .mtok id => id.data.all Char.isDigit

/-- Helper: `takeWhile` over a satisfying block stopped by a failing head. -/
theorem takeWhile_all_append (p : Char → Bool) (l : List Char) (x : Char)
    (r : List Char) (hl : ∀ c ∈ l, p c = true) (hx : p x = false) :
    (l ++ x :: r).takeWhile p = l := by
  induction l with
  | nil => simp [List.takeWhile_cons, hx]
  | cons a tail ih =>
    have ha := hl a (List.mem_cons_self _ _)
    simp only [List.cons_append, List.takeWhile_cons, ha, if_true]
    rw [ih (fun c hc => hl c (List.mem_cons_of_mem _ hc))]

/-- Helper: `dropWhile` over a satisfying block stopped by a failing head. -/
theorem dropWhile_all_append (p : Char → Bool) (l : List Char) (x : Char)
    (r : List Char) (hl : ∀ c ∈ l, p c = true) (hx : p x = false) :
    (l ++ x :: r).dropWhile p = x :: r := by
  induction l with
  | nil => simp [List.dropWhile_cons, hx]
  | cons a tail ih =>
    have ha := hl a (List.mem_cons_self _ _)
    simp only [List.cons_append, List.dropWhile_cons, ha, if_true]
    exact ih (fun c hc => hl c (List.mem_cons_of_mem _ hc))

/-- Helper: `digitRun` on a digit block followed by `>` splits exactly there. -/
theorem digitRun_digits (ds r : List Char) (hds : ∀ c ∈ ds, c.isDigit = true) :
    digitRun (ds ++ '>' :: r) = some (ds, r) := by
  unfold digitRun
  rw [takeWhile_all_append Char.isDigit ds '>' r hds (by decide),
    dropWhile_all_append Char.isDigit ds '>' r hds (by decide)]
  simp

/-- Helper: the mention matcher fails on any text that does not start with
`<`. -/
theorem mentionAt_none_of_head (users : List UserRef) (c : Char)
    (rest : List Char) (hc : c ≠ '<') : mentionAt users (c :: rest) = none := by
  cases rest with
  | nil => rfl
  | cons c2 r => simp [mentionAt, hc]

/-- Helper: the mention matcher on a well-formed token consumes exactly the
token and produces the claimed replacement. -/
theorem mentionAt_tok (users : List UserRef) (ds rest : List Char)
    (hds : ∀ c ∈ ds, c.isDigit = true) :
    mentionAt users ('<' :: '@' :: (ds ++ '>' :: rest)) =
      some ((mentionReplSpec users (String.mk ds)).data, rest) := by
  simp only [mentionAt, if_pos rfl, digitRun_digits ds rest hds, Option.map_some,
    mentionReplSpec]
  cases h : users.find? (fun u => u.id == String.mk ds) <;> simp [h]

/-- Helper: the scanner on the empty text. -/
theorem scanRw_nil (m : List Char → Option (List Char × List Char)) (f : Nat) :
    scanRw m f [] = [] := by
  cases f <;> rfl

/-- Helper: one scanner step on a match. -/
theorem scanRw_step_some (m : List Char → Option (List Char × List Char))
    (c : Char) (cs : List Char) (f : Nat) (repl tail : List Char)
    (h : m (c :: cs) = some (repl, tail)) :
    scanRw m (f + 1) (c :: cs) = repl ++ scanRw m f tail := by
  simp [scanRw, h]

/-- Helper: one scanner step on a non-match. -/
theorem scanRw_step_none (m : List Char → Option (List Char × List Char))
    (c : Char) (cs : List Char) (f : Nat) (h : m (c :: cs) = none) :
    scanRw m (f + 1) (c :: cs) = c :: scanRw m f cs := by
  simp [scanRw, h]

/-- Helper: the scanner copies a block on which the matcher can never fire. -/
theorem scanRw_skip (m : List Char → Option (List Char × List Char))
    (pre rest : List Char) (f : Nat)
    (hm : ∀ (c : Char) (t : List Char), c ∈ pre → m (c :: t) = none) :
    scanRw m (pre.length + f) (pre ++ rest) = pre ++ scanRw m f rest := by
  induction pre with
  | nil => simp
  | cons c tail ih =>
    have harith : (c :: tail).length + f = (tail.length + f) + 1 := by
      simp [List.length_cons]
      omega
    rw [harith, List.cons_append,
      scanRw_step_none m c (tail ++ rest) (tail.length + f)
        (hm c (tail ++ rest) (List.mem_cons_self _ _)),
      ih (fun c h t => hm c h (List.mem_cons_of_mem _ t))]
    rfl

/-- Helper: the scanner run of `replace_mentions` on a rendered well-formed
segment list yields the claimed output, for any fuel surplus. -/
theorem scanRw_mention_segs (users : List UserRef) :
    ∀ (segs : List MSeg), (∀ s ∈ segs, segWF s = true) → ∀ (f : Nat),
      scanRw (mentionAt users) ((renderSegsChars segs).length + f)
        (renderSegsChars segs) = renderSegsSpecChars users segs := by
  intro segs
  induction segs with
  | nil =>
    intro _ f
    simpa [renderSegsChars, renderSegsSpecChars] using
      scanRw_nil (mentionAt users) f
  | cons s rest ih =>
    intro h f
    have hrest : ∀ x ∈ rest, segWF x = true :=
      fun x hx => h x (List.mem_cons_of_mem _ hx)
    cases s with
    | lit str =>
      have hlit : ∀ c ∈ str.data, (!(c == '<')) = true :=
        List.all_eq_true.1 (h (.lit str) (List.mem_cons_self _ _))
      have hm : ∀ (c : Char) (t : List Char), c ∈ str.data →
          mentionAt users (c :: t) = none := by
        intro c t hc
        refine mentionAt_none_of_head users c t ?_
        have := hlit c hc
        simpa using this
      show scanRw (mentionAt users)
          ((str.data ++ renderSegsChars rest).length + f)
          (str.data ++ renderSegsChars rest) =
        str.data ++ renderSegsSpecChars users rest
      have harith : (str.data ++ renderSegsChars rest).length + f =
          str.data.length + ((renderSegsChars rest).length + f) := by
        simp [List.length_append]
        omega
      rw [harith,
        scanRw_skip (mentionAt users) str.data (renderSegsChars rest) _ hm,
        ih hrest f]
    | mtok id =>
      have hdig : ∀ c ∈ id.data, c.isDigit = true :=
        List.all_eq_true.1 (h (.mtok id) (List.mem_cons_self _ _))
      show scanRw (mentionAt users)
          (('<' :: '@' :: (id.data ++ '>' :: renderSegsChars rest)).length + f)
          ('<' :: '@' :: (id.data ++ '>' :: renderSegsChars rest)) =
        (mentionReplSpec users id).data ++ renderSegsSpecChars users rest
      have harith :
          ('<' :: '@' :: (id.data ++ '>' :: renderSegsChars rest)).length + f =
            ((renderSegsChars rest).length + (id.data.length + 2 + f)) + 1 := by
        simp [List.length_cons, List.length_append]
        omega
      rw [harith]
      rw [scanRw_step_some (mentionAt users) '<'
        ('@' :: (id.data ++ '>' :: renderSegsChars rest))
        ((renderSegsChars rest).length + (id.data.length + 2 + f))
        _ _ (mentionAt_tok users id.data (renderSegsChars rest) hdig)]
      rw [ih hrest (id.data.length + 2 + f)]

/-- Counterexample for C4: a mention token with an id that is not in the
mentions list is removed from the output, not left unchanged (while a known
id is rewritten to `@username` as claimed). -/
theorem c4_unknown_mention_dropped :
    replace_mentions "<@99>" [{ id := "42", username := "ada" }] = "" ∧
    replace_mentions "<@99>" [{ id := "42", username := "ada" }] ≠ "<@99>" ∧
    replace_mentions "<@42>" [{ id := "42", username := "ada" }] = "@ada" := by
  refine ⟨rfl, ?_, rfl⟩
  decide

/-- C4 (amended): on any interleaving of `<`-free literals and digit-id
mention tokens, `replace_mentions` rewrites each token whose id occurs in the
mentions list to `@username` (first match) and removes each token whose id
does not occur. -/
theorem c4_mentions_rewrite (users : List UserRef) (segs : List MSeg)
    (h : ∀ s ∈ segs, segWF s = true) :
    replace_mentions (String.mk (renderSegsChars segs)) users =
      String.mk (renderSegsSpecChars users segs) := by
  unfold replace_mentions
  have hmain := scanRw_mention_segs users segs h 0
  rw [Nat.add_zero] at hmain
  exact congrArg String.mk hmain

/-- Concrete segment list for the C4 witness: rendered text
`x<@42>y<@99>z`. -/
def c4Segs : List MSeg := [.lit "x", .mtok "42", .lit "y", .mtok "99", .lit "z"]

/-- Witness for C4: the known token becomes `@ada`, the unknown one
disappears, giving `x@adayz`. -/
theorem c4_mentions_rewrite_witness :
    (∀ s ∈ c4Segs, segWF s = true) ∧
    replace_mentions (String.mk (renderSegsChars c4Segs))
        [{ id := "42", username := "ada" }] =
      String.mk (renderSegsSpecChars [{ id := "42", username := "ada" }] c4Segs) :=
  ⟨by decide, c4_mentions_rewrite [{ id := "42", username := "ada" }] c4Segs
    (by decide)⟩

/-! ## C9: poll option lines -/

/-- Modelled from the spec (§4.2 poll rendering): the option line
`  <marker> <answer> (<votes> votes, <pct>%)` where `marker` is `*` iff
`me_voted`, the displayed votes are the option count, and `pct` is
`round(votes/total*100)` with `pct = 0` when `total = 0`. -/
def specOptionLine (total : Nat) (o : PollOption) : String :=
  "  " ++ (if o.me_voted then "*" else "-") ++ " " ++ o.answer ++ " (" ++
    toString o.count ++ " votes, " ++
    toString (if total = 0 then 0 else roundHalfEven (o.count * 100) total) ++
    "%)"

/-- Modelled from the spec (§4.2): the full block-quoted poll rendering with
the option lines given by `specOptionLine`. -/
def specPollRender (poll : Poll) (now : Nat) : String :=
  stripNL (String.join
    (((["*Poll (" ++ (if poll.expires < now then "ended" else "ongoing") ++ "):*",
        poll.question] ++
       poll.options.map (specOptionLine (totalVotes poll)) ++
       [(if poll.expires < now then "Ended" else "Ends") ++ " <t:" ++
         toString poll.expires ++ ":R>"]).map (fun line => "> " ++ line ++ "
"))))

/-- Helper: a zero sum of naturals forces every summand to zero. -/
theorem natSum_eq_zero (l : List Nat) (h : l.sum = 0) : ∀ x ∈ l, x = 0 := by
  induction l with
  | nil => intro x hx; cases hx
  | cons a tail ih =>
    intro x hx
    rw [List.sum_cons] at h
    rcases List.mem_cons.1 hx with rfl | hmem
    · omega
    · exact ih (by omega) x hmem

/-- C9: `format_poll` renders exactly the spec template — each option line
carries marker `*` iff `me_voted` (`-` otherwise) and the rounded percentage
`round(votes/total*100)`; and when the total is zero every option line reads
`(0 votes, 0%)`. -/
theorem c9_poll_lines (poll : Poll) (now : Nat) :
    format_poll poll now = specPollRender poll now ∧
    (totalVotes poll = 0 → ∀ o ∈ poll.options,
      specOptionLine (totalVotes poll) o =
        "  " ++ (if o.me_voted then "*" else "-") ++ " " ++ o.answer ++
          " (" ++ toString (0 : Nat) ++ " votes, " ++ toString (0 : Nat) ++
          "%)") := by
  constructor
  · unfold format_poll specPollRender
    have hmap : poll.options.map (pollOptionLine (totalVotes poll)) =
        poll.options.map (specOptionLine (totalVotes poll)) := by
      refine List.map_congr_left ?_
      intro o ho
      by_cases htot : totalVotes poll = 0
      · have hcount : o.count = 0 :=
          natSum_eq_zero _ htot o.count
            (List.mem_map.2 ⟨o, ho, rfl⟩)
        simp [pollOptionLine, specOptionLine, htot, hcount]
      · simp [pollOptionLine, specOptionLine, htot]
    rw [hmap]
  · intro htot o _
    have hcount : o.count = 0 :=
      natSum_eq_zero _ htot o.count (List.mem_map.2 ⟨o, ‹o ∈ poll.options›, rfl⟩)
    simp [specOptionLine, htot, hcount]

/-- A poll with zero total votes for the C9 witness. -/
def c9Poll : Poll := { question := "Q?", options := [⟨"A", 0, false⟩], expires := 99 }

/-- Witness for C9 at a concrete zero-vote poll. -/
theorem c9_poll_lines_witness :
    format_poll c9Poll 100 = specPollRender c9Poll 100 ∧
    specOptionLine (totalVotes c9Poll) ⟨"A", 0, false⟩ = "  - A (0 votes, 0%)" :=
  ⟨(c9_poll_lines c9Poll 100).1,
    (c9_poll_lines c9Poll 100).2 (by decide) ⟨"A", 0, false⟩ (by decide)⟩

end SpacebarBridge
